import Mathlib

/-!
# Verification of `src/config/palette.py` (`PaletteState`)

A shallow embedding of the palette configuration record and its three
ingestion paths (`parse_legacy`, `parse_kv1`, `parse_dmx`) together with
the two exporters (`export_kv1`, `export_dmx`).

Modelling conventions:
* Python `UUID` values are natural numbers (`< 2^128` whenever produced by
  a decoder); equality of `UUID`s is integer equality, as in CPython.
* Raising an exception that escapes a routine is modelled by a routine
  returning `Option` with value `none`.
* `frozenset[UUID]` is `Finset Nat`.
* The constants `UUID_PORTAL2` and `PALETTE_FORCE_SHOWN` live in the
  `consts` module, which is not part of the sources; per the spec they are
  an injected default identifier and an injected constant set.  Concrete
  placeholder values are used; no proof depends on the particular values.
-/

namespace Palette

/-- Modelled from the spec: the built-in default identifier `UUID_PORTAL2`
from the external `consts` module ("a well-known built-in identifier").
The concrete 128-bit value is a placeholder; no proof depends on it. -/
def UUID_PORTAL2 : Nat := 0x701d3fd41b9344b2b39bb2b6ba0dcdd3

/-- Modelled from the spec: the force-shown identifier set
`PALETTE_FORCE_SHOWN` from the external `consts` module ("a fixed set of
force-shown identifiers ... treat it as an injected constant set").
Concrete placeholder values; no proof depends on them. -/
def FORCE_SHOWN : Finset Nat := {0xfcf9d2eecf624ff89a4b10fe, 0x2ffd82cf}

/-- The `PaletteState` record: `selected` identifier, `save_settings`
flag and the `hidden_defaults` identifier set (a `frozenset`, so
insertion order is irrelevant). -/
structure PaletteState where
  selected : Nat
  save_settings : Bool
  hidden_defaults : Finset Nat
deriving DecidableEq

/-! ## Fixed-width base-`b` digit codec

`natToDigitsBE b k n` is the big-endian, exactly-`k`-digit base-`b`
expansion of `n` (the low `k` digits of `n`, as `%032x` /
`int.to_bytes(16, 'big')` produce for in-range values).
`digitsToNat` is the evaluation map used by `int(s, 16)` /
`int.from_bytes(b, 'big')`. -/

def natToDigitsBE (b : Nat) : Nat → Nat → List Nat
  | 0, _ => []
  | k + 1, n => natToDigitsBE b k (n / b) ++ [n % b]

def digitsToNatAux (b : Nat) : List Nat → Nat → Nat
  | [], acc => acc
  | d :: rest, acc => digitsToNatAux b rest (acc * b + d)

def digitsToNat (b : Nat) (l : List Nat) : Nat := digitsToNatAux b l 0

theorem natToDigitsBE_length (b k n : Nat) : (natToDigitsBE b k n).length = k := by
  induction k generalizing n with
  | zero => rfl
  | succ k ih => simp [natToDigitsBE, ih]

theorem natToDigitsBE_lt (b k n : Nat) (hb : 0 < b) :
    ∀ d ∈ natToDigitsBE b k n, d < b := by
  induction k generalizing n with
  | zero => simp [natToDigitsBE]
  | succ k ih =>
    intro d hd
    simp only [natToDigitsBE, List.mem_append, List.mem_singleton] at hd
    rcases hd with h | h
    · exact ih (n / b) d h
    · subst h; exact Nat.mod_lt _ hb

theorem digitsToNatAux_append (b : Nat) (l₁ l₂ : List Nat) (acc : Nat) :
    digitsToNatAux b (l₁ ++ l₂) acc = digitsToNatAux b l₂ (digitsToNatAux b l₁ acc) := by
  induction l₁ generalizing acc with
  | nil => rfl
  | cons d rest ih => simp [digitsToNatAux, ih]

theorem digitsToNatAux_natToDigitsBE (b k : Nat) :
    ∀ n acc, n < b ^ k → digitsToNatAux b (natToDigitsBE b k n) acc = acc * b ^ k + n := by
  induction k with
  | zero =>
    intro n acc hn
    have hn0 : n = 0 := by simpa using Nat.lt_one_iff.mp (by simpa using hn)
    subst hn0
    simp [natToDigitsBE, digitsToNatAux]
  | succ k ih =>
    intro n acc hn
    have hb : 0 < b := by
      rcases Nat.eq_zero_or_pos b with hb0 | hb0
      · subst hb0; simp at hn
      · exact hb0
    have hdiv : n / b < b ^ k := by
      rw [Nat.div_lt_iff_lt_mul hb]
      calc n < b ^ (k + 1) := hn
        _ = b ^ k * b := by ring
    rw [natToDigitsBE, digitsToNatAux_append, ih (n / b) acc hdiv]
    simp only [digitsToNatAux]
    have hmod := Nat.div_add_mod n b
    have : (acc * b ^ k + n / b) * b + n % b = acc * b ^ (k + 1) + n := by
      rw [Nat.add_mul, Nat.add_assoc, Nat.mul_comm (n / b) b, hmod]
      ring_nf
    rw [this]

theorem digitsToNat_natToDigitsBE (b k n : Nat) (hn : n < b ^ k) :
    digitsToNat b (natToDigitsBE b k n) = n := by
  have := digitsToNatAux_natToDigitsBE b k n 0 hn
  simpa [digitsToNat] using this

/-! ## UUID text codec (CPython `uuid.UUID(hex=...)` / `UUID.hex`) -/

/-- Value of one hexadecimal digit character, as accepted by `int(s, 16)`. -/
def hexVal (c : Char) : Option Nat :=
  if '0' ≤ c ∧ c ≤ '9' then some (c.toNat - '0'.toNat)
  else if 'a' ≤ c ∧ c ≤ 'f' then some (c.toNat - 'a'.toNat + 10)
  else if 'A' ≤ c ∧ c ≤ 'F' then some (c.toNat - 'A'.toNat + 10)
  else none

/-- Parse a list of characters as base-16 digits (accumulator form).
Models `int(s, 16)` on strings of plain hexadecimal digits; Python
additionally accepts surrounding whitespace, a sign and `_` separators,
forms no exporter of this module produces. -/
def parseHexDigits : List Char → Nat → Option Nat
  | [], acc => some acc
  | c :: rest, acc =>
    match hexVal c with
    | some d => parseHexDigits rest (acc * 16 + d)
    | none => none

/-- Remove every (non-overlapping, left-to-right) occurrence of `pat`,
as Python `str.replace(pat, '')`; fuelled so the definition is
structurally recursive and kernel-reducible. -/
def removeSubAux (pat : List Char) : Nat → List Char → List Char
  | _, [] => []
  | 0, s => s
  | fuel + 1, c :: rest =>
    if pat ≠ [] ∧ pat.isPrefixOf (c :: rest) then
      removeSubAux pat fuel (rest.drop (pat.length - 1))
    else
      c :: removeSubAux pat fuel rest

def removeSub (pat s : List Char) : List Char := removeSubAux pat s.length s

/-- Python `str.strip(chars)`: drop the characters of `cs` from both ends. -/
def stripChars (cs : List Char) (s : List Char) : List Char :=
  ((s.dropWhile (· ∈ cs)).reverse.dropWhile (· ∈ cs)).reverse

/-- `uuid.UUID(hex=s)`: strip `urn:` / `uuid:` substrings, braces and
dashes, require exactly 32 hexadecimal digits, and read them big-endian.
`none` models the `ValueError` raised on a badly formed string. -/
def uuidFromHex (s : List Char) : Option Nat :=
  let h := removeSub "uuid:".data (removeSub "urn:".data s)
  let h := removeSub "-".data (stripChars ['\x7b', '\x7d'] h)
  if h.length = 32 then parseHexDigits h 0 else none

def uuidFromHexS (s : String) : Option Nat := uuidFromHex s.data

/-- `UUID.hex`: the 32-character zero-padded lowercase hexadecimal form. -/
def uuidHex (n : Nat) : List Char := (natToDigitsBE 16 32 n).map Nat.digitChar

def uuidHexS (n : Nat) : String := String.mk (uuidHex n)

/-! ## UUID binary codec (`uuid.UUID(bytes=...)` / `UUID.bytes`) -/

/-- `uuid.UUID(bytes=b)`: requires exactly 16 bytes, read big-endian;
`none` models the `ValueError` on a length mismatch. -/
def uuidFromBytes (b : List Nat) : Option Nat :=
  if b.length = 16 then some (digitsToNat 256 b) else none

/-- `UUID.bytes`: the 16-byte big-endian form. -/
def uuidBytes (n : Nat) : List Nat := natToDigitsBE 256 16 n

/-! ### Codec round-trips -/

theorem uuidFromBytes_uuidBytes (n : Nat) (hn : n < 2 ^ 128) :
    uuidFromBytes (uuidBytes n) = some n := by
  have hlen : (uuidBytes n).length = 16 := natToDigitsBE_length 256 16 n
  have h256 : (256 : Nat) ^ 16 = 2 ^ 128 := by norm_num
  rw [uuidFromBytes, if_pos hlen, uuidBytes,
    digitsToNat_natToDigitsBE 256 16 n (by rw [h256]; exact hn)]

theorem hexVal_digitChar (d : Nat) (hd : d < 16) :
    hexVal (Nat.digitChar d) = some d := by
  interval_cases d <;> decide

/-- Characters produced by `uuidHex` are plain lowercase hex digits. -/
def isLowerHexDigit (c : Char) : Prop :=
  ('0' ≤ c ∧ c ≤ '9') ∨ ('a' ≤ c ∧ c ≤ 'f')

instance (c : Char) : Decidable (isLowerHexDigit c) := by
  unfold isLowerHexDigit; infer_instance

theorem uuidHex_isLowerHexDigit (n : Nat) :
    ∀ c ∈ uuidHex n, isLowerHexDigit c := by
  intro c hc
  simp only [uuidHex, List.mem_map] at hc
  obtain ⟨d, hd, rfl⟩ := hc
  have hd16 : d < 16 := natToDigitsBE_lt 16 32 n (by norm_num) d hd
  interval_cases d <;> decide

theorem removeSubAux_no_match (pat : List Char) (c0 : Char)
    (hpat : pat.head? = some c0) :
    ∀ (fuel : Nat) (s : List Char), c0 ∉ s → removeSubAux pat fuel s = s := by
  intro fuel
  induction fuel with
  | zero => intro s _; cases s <;> rfl
  | succ k ih =>
    intro s hs
    cases s with
    | nil => rfl
    | cons c rest =>
      have hne : ¬ (pat ≠ [] ∧ pat.isPrefixOf (c :: rest)) := by
        rintro ⟨hne0, hpre⟩
        cases pat with
        | nil => exact hne0 rfl
        | cons p ps =>
          simp only [List.head?] at hpat
          obtain rfl : p = c0 := by injection hpat
          rw [ List.isPrefixOf_iff_prefix, List.cons_prefix_cons] at hpre
          exact hs (hpre.1 ▸ List.mem_cons_self c rest)
      rw [removeSubAux, if_neg hne,
        ih rest (fun h => hs (List.mem_cons_of_mem c h))]

theorem removeSub_no_match (pat : List Char) (c0 : Char) (s : List Char)
    (hpat : pat.head? = some c0) (hs : c0 ∉ s) : removeSub pat s = s :=
  removeSubAux_no_match pat c0 hpat s.length s hs

theorem dropWhile_of_forall_not {p : Char → Bool} (s : List Char)
    (h : ∀ c ∈ s, ¬ p c) : s.dropWhile p = s := by
  cases s with
  | nil => rfl
  | cons c rest =>
    rw [List.dropWhile_cons_of_neg]
    exact h c (List.mem_cons_self c rest)

theorem stripChars_no_match (cs s : List Char)
    (h : ∀ c ∈ s, c ∉ cs) : stripChars cs s = s := by
  unfold stripChars
  rw [dropWhile_of_forall_not s (by intro c hc; simpa using h c hc),
    dropWhile_of_forall_not s.reverse
      (by intro c hc; simpa using h c (List.mem_reverse.mp hc)),
    List.reverse_reverse]

theorem parseHexDigits_map_digitChar (ds : List Nat) (hds : ∀ d ∈ ds, d < 16) :
    ∀ acc, parseHexDigits (ds.map Nat.digitChar) acc = some (digitsToNatAux 16 ds acc) := by
  induction ds with
  | nil => intro acc; rfl
  | cons d rest ih =>
    intro acc
    have hd : d < 16 := hds d (List.mem_cons_self d rest)
    rw [List.map_cons, parseHexDigits, hexVal_digitChar d hd]
    exact ih (fun x hx => hds x (List.mem_cons_of_mem d hx)) (acc * 16 + d)

/-- The text round-trip of the identifier codec: parsing the canonical
32-digit lowercase hex form recovers the identifier. -/
theorem uuidFromHex_uuidHex (n : Nat) (hn : n < 2 ^ 128) :
    uuidFromHex (uuidHex n) = some n := by
  have hhex := uuidHex_isLowerHexDigit n
  have hnot : ∀ (c0 : Char), ¬ isLowerHexDigit c0 → c0 ∉ uuidHex n := by
    intro c0 hc0 hmem
    exact hc0 (hhex c0 hmem)
  rw [uuidFromHex]
  rw [removeSub_no_match "urn:".data 'u' _ rfl (hnot 'u' (by decide))]
  rw [removeSub_no_match "uuid:".data 'u' _ rfl (hnot 'u' (by decide))]
  rw [stripChars_no_match _ _ (by
    intro c hc hmem
    have hx := hhex c hc
    have hcodes : c = '\x7b' ∨ c = '\x7d' := by simpa using hmem
    rcases hx with ⟨h1, h2⟩ | ⟨h1, h2⟩ <;> rcases hcodes with rfl | rfl <;>
      revert h1 h2 <;> decide)]
  rw [removeSub_no_match "-".data '-' _ rfl (hnot '-' (by decide))]
  have hlen : (uuidHex n).length = 32 := by
    simp [uuidHex, natToDigitsBE_length]
  rw [if_pos hlen, uuidHex,
    parseHexDigits_map_digitChar _ (natToDigitsBE_lt 16 32 n (by norm_num))]
  have h16 : (16 : Nat) ^ 32 = 2 ^ 128 := by norm_num
  have := digitsToNatAux_natToDigitsBE 16 32 n 0 (by rw [h16]; exact hn)
  simpa using this

/-! ## Enumerating a `frozenset`

Python iterates a `frozenset` in an unspecified order; both exporters
write the hidden set in that order, and both parsers read it back as a
set, so any canonical enumeration is faithful.  We enumerate in sorted
order, via `insertionSort` so that the enumeration is kernel-reducible
on concrete sets. -/

def sortNat (s : Finset Nat) : List Nat :=
  Quot.liftOn s.val (fun l => l.insertionSort (· ≤ ·)) fun a b h =>
    List.eq_of_perm_of_sorted
      ((a.perm_insertionSort _).trans (h.trans (b.perm_insertionSort _).symm))
      (List.sorted_insertionSort _ a) (List.sorted_insertionSort _ b)

theorem sortNat_coe (s : Finset Nat) : (sortNat s : Multiset Nat) = s.val := by
  rcases s with ⟨val, nodup⟩
  induction val using Quotient.inductionOn with
  | h l => exact Quot.sound (l.perm_insertionSort _)

theorem mem_sortNat {a : Nat} {s : Finset Nat} : a ∈ sortNat s ↔ a ∈ s := by
  rw [← Multiset.mem_coe, sortNat_coe]
  rfl

theorem toFinset_sortNat (s : Finset Nat) : (sortNat s).toFinset = s :=
  Finset.ext fun a => by rw [List.mem_toFinset, mem_sortNat]

/-! ## Keyvalues (srctools `Property`) model

`parse_kv1` reads only the direct children of the block it is given, all
of which are leaf properties in the inputs this format produces; a block
is therefore a list of `(name, value)` leaves.  srctools matches property
names case-insensitively (names are casefolded); queries in this module
are all lowercase, so matching lowers the stored name. -/

structure KV1Leaf where
  name : String
  value : String
deriving DecidableEq

abbrev KV1Block := List KV1Leaf

/-- `Property.find_key` / `Property.__getitem__`: the value of the child
with the given (already lowercase) name, preferring keys located later in
the block, as srctools does; `none` models the `NoKeyError`
(a `LookupError`). -/
def strLower (s : String) : String := String.mk (s.data.map Char.toLower)

def findKey (data : KV1Block) (key : String) : Option String :=
  (data.reverse.find? (fun p => strLower p.name == key)).map (·.value)

/-- `Property.find_all`: the values of every child with the given name,
in document order. -/
def findAll (data : KV1Block) (key : String) : List String :=
  (data.filter (fun p => strLower p.name == key)).map (·.value)

/-- srctools `BOOL_LOOKUP`: the string forms recognised as booleans. -/
def boolLookup : String → Option Bool
  | "0" => some false
  | "no" => some false
  | "false" => some false
  | "n" => some false
  | "f" => some false
  | "1" => some true
  | "yes" => some true
  | "true" => some true
  | "y" => some true
  | "t" => some true
  | _ => none

/-- `Property.bool(key, default)`: look the key up, casefold the value and
read it through `BOOL_LOOKUP`; any `LookupError` (missing key or
unrecognised value) yields the default. -/
def kvBool (data : KV1Block) (key : String) (dflt : Bool) : Bool :=
  ((findKey data key).bind (fun v => boolLookup (strLower v))).getD dflt

/-- The `selected` field of `parse_kv1`: `UUID(hex=data['selected'])` with
`LookupError` and `ValueError` both recovered to `UUID_PORTAL2`. -/
def kv1Selected (data : KV1Block) : Nat :=
  ((findKey data "selected").bind uuidFromHexS).getD UUID_PORTAL2

/-- The raw `hidden` set comprehension of `parse_kv1`:
`{UUID(hex=prop.value) for prop in data.find_all('hidden')}`; a malformed
entry raises `ValueError`, which `parse_kv1` does not catch. -/
def kv1HiddenRaw (data : KV1Block) : Option (List Nat) :=
  (findAll data "hidden").mapM uuidFromHexS

/-- `PaletteState.parse_kv1`.  The leading `assert version == 1` is the
failure on any other version; `none` models an escaping exception. -/
def parse_kv1 (data : KV1Block) (version : Nat) : Option PaletteState :=
  if version = 1 then
    match kv1HiddenRaw data with
    | none => none
    | some hs =>
      some ⟨kv1Selected data, kvBool data "save_settings" false,
        (hs.toFinset.erase (kv1Selected data)) \ FORCE_SHOWN⟩
  else none

/-- `PaletteState.export_kv1`: `selected` as hex, `save_settings` through
`bool_as_int`, then one `hidden` leaf per hidden identifier in the set's
iteration order (modelled as the canonical sorted order; the parser treats
the entries as a set, so the order is immaterial). -/
def export_kv1 (r : PaletteState) : KV1Block :=
  ⟨"selected", uuidHexS r.selected⟩ ::
  ⟨"save_settings", if r.save_settings then "1" else "0"⟩ ::
  (sortNat r.hidden_defaults).map (fun u => ⟨"hidden", uuidHexS u⟩)

/-! ## DMX (srctools `Element` / `Attribute`) model -/

inductive DMXValue where
  | vBinary (b : List Nat)
  | vBool (b : Bool)
  | vBinaryArr (bs : List (List Nat))
deriving DecidableEq

structure DMXAttr where
  name : String
  val : DMXValue
deriving DecidableEq

structure Element where
  name : String
  type : String
  attrs : List DMXAttr
deriving DecidableEq

/-- `Element.__getitem__`: attribute lookup by casefolded name; `none`
models the `KeyError`. -/
def lookupAttr (e : Element) (key : String) : Option DMXValue :=
  (e.attrs.find? (fun a => strLower a.name == key)).map (·.val)

/-- `Attribute.val_bytes`: the binary value; converting from another
attribute type raises (`none`). -/
def valBytes : DMXValue → Option (List Nat)
  | .vBinary b => some b
  | _ => none

/-- `Attribute.val_bool`: the boolean value; converting from a binary
attribute raises (`none`). -/
def valBool : DMXValue → Option Bool
  | .vBool b => some b
  | _ => none

/-- `Attribute.iter_bytes`: every element of a binary array, or the single
value of a scalar binary attribute; a boolean attribute fails to convert. -/
def iterBytes : DMXValue → Option (List (List Nat))
  | .vBinaryArr bs => some bs
  | .vBinary b => some [b]
  | .vBool _ => none

/-- The `selected` field of `parse_dmx`:
`UUID(bytes=data['selected'].val_bytes)` with `LookupError` and
`ValueError` both recovered to `UUID_PORTAL2`. -/
def dmxSelected (e : Element) : Nat :=
  (((lookupAttr e "selected").bind valBytes).bind uuidFromBytes).getD UUID_PORTAL2

/-- The `hidden` handling of `parse_dmx`: a missing attribute (`KeyError`)
yields the empty set with no filtering; a present attribute is decoded
entry by entry (`ValueError` escapes), then `selected` and the force-shown
identifiers are removed. -/
def dmxHidden (e : Element) (uuid : Nat) : Option (Finset Nat) :=
  match lookupAttr e "hidden" with
  | none => some ∅
  | some v =>
    match iterBytes v with
    | none => none
    | some bs =>
      match bs.mapM uuidFromBytes with
      | none => none
      | some us => some ((us.toFinset.erase uuid) \ FORCE_SHOWN)

/-- The `save_settings` read of `parse_dmx`:
`data['save_settings'].val_bool`, with no exception handling. -/
def dmxSave (e : Element) : Option Bool :=
  (lookupAttr e "save_settings").bind valBool

/-- `PaletteState.parse_dmx`.  Note that the body never inspects
`version`: the source has no version assertion here. -/
def parse_dmx (e : Element) (version : Nat) : Option PaletteState :=
  match dmxHidden e (dmxSelected e), dmxSave e with
  | some hidden, some save => some ⟨dmxSelected e, save, hidden⟩
  | _, _ => none

/-- `PaletteState.export_dmx`: a `Palette` element with `selected` as raw
bytes, `save_settings` as a boolean and `hidden` as a binary array in the
set's iteration order (modelled as the canonical sorted order). -/
def export_dmx (r : PaletteState) : Element :=
  ⟨"Palette", "DMElement",
    [⟨"selected", .vBinary (uuidBytes r.selected)⟩,
     ⟨"save_settings", .vBool r.save_settings⟩,
     ⟨"hidden", .vBinaryArr ((sortNat r.hidden_defaults).map uuidBytes)⟩]⟩

/-! ## Legacy flat configuration (`BEE2_config.GEN_OPTS`) model -/

/-- Modelled from the spec: the legacy flat key/value store
(`GEN_OPTS` of the external `BEE2_config` module), "organized as named
sections each holding string-keyed scalar values". -/
structure LegacyConf where
  vals : List (String × String × String)
deriving DecidableEq

def LegacyConf.lookup (l : LegacyConf) (sec key : String) : Option String :=
  (l.vals.find? (fun t => t.1 == sec && t.2.1 == key)).map (·.2.2)

/-- Modelled from the spec: `GEN_OPTS.get_val(section, key, default)` —
the stored string, or the default when the key is missing. -/
def LegacyConf.get_val (l : LegacyConf) (sec key dflt : String) : String :=
  (l.lookup sec key).getD dflt

/-- The boolean forms recognised by the legacy store
(`ConfigParser.BOOLEAN_STATES`). -/
def boolLookupLegacy : String → Option Bool
  | "1" => some true
  | "yes" => some true
  | "true" => some true
  | "on" => some true
  | "0" => some false
  | "no" => some false
  | "false" => some false
  | "off" => some false
  | _ => none

/-- Modelled from the spec: `GEN_OPTS.get_bool(section, key)` — "attempts
a typed read and substitutes the field's documented default on any error
(missing key, wrong type)"; the default here is `false`. -/
def LegacyConf.get_bool (l : LegacyConf) (sec key : String) : Bool :=
  ((l.lookup sec key).bind (fun v => boolLookupLegacy (strLower v))).getD false

/-- `PaletteState.parse_legacy`.  The source reads only the ambient
`LEGACY_CONF` global, modelled as the explicit `legacy` argument; the
`conf` argument of the source is bound but never read. -/
def parse_legacy (legacy : LegacyConf) (conf : KV1Block) :
    List (String × PaletteState) :=
  let selected_uuid :=
    (uuidFromHexS (legacy.get_val "Last_Selected" "palette_uuid" "")).getD UUID_PORTAL2
  [("", ⟨selected_uuid, legacy.get_bool "General" "palette_save_settings", ∅⟩)]

/-! ## Invariants -/

/-- The two membership invariants of §3 of the spec: `selected` is not
hidden, and no force-shown identifier is hidden. -/
def inv_ok (r : PaletteState) : Prop :=
  r.selected ∉ r.hidden_defaults ∧ ∀ u ∈ FORCE_SHOWN, u ∉ r.hidden_defaults

instance (r : PaletteState) : Decidable (inv_ok r) := by
  unfold inv_ok; infer_instance

theorem parse_kv1_inv {d : KV1Block} {v : Nat} {r : PaletteState}
    (h : parse_kv1 d v = some r) : inv_ok r := by
  unfold parse_kv1 at h
  split at h
  · cases hh : kv1HiddenRaw d with
    | none => rw [hh] at h; cases h
    | some hs =>
      rw [hh] at h
      simp only [Option.some.injEq] at h
      subst h
      refine ⟨?_, ?_⟩
      · simp [Finset.mem_sdiff, Finset.not_mem_erase]
      · intro u hu
        simp [Finset.mem_sdiff, hu]
  · cases h

theorem dmxHidden_inv {e : Element} {uuid : Nat} {hidden : Finset Nat}
    (h : dmxHidden e uuid = some hidden) :
    uuid ∉ hidden ∧ ∀ u ∈ FORCE_SHOWN, u ∉ hidden := by
  unfold dmxHidden at h
  split at h
  · simp only [Option.some.injEq] at h
    subst h
    simp
  · split at h
    · cases h
    · split at h
      · cases h
      · simp only [Option.some.injEq] at h
        subst h
        refine ⟨?_, ?_⟩
        · simp [Finset.mem_sdiff, Finset.not_mem_erase]
        · intro u hu
          simp [Finset.mem_sdiff, hu]

theorem parse_dmx_inv {e : Element} {v : Nat} {r : PaletteState}
    (h : parse_dmx e v = some r) : inv_ok r := by
  unfold parse_dmx at h
  split at h
  · next hidden save hh hs =>
      simp only [Option.some.injEq] at h
      subst h
      exact dmxHidden_inv hh
  · cases h

theorem parse_legacy_inv {legacy : LegacyConf} {conf : KV1Block} {k : String}
    {r : PaletteState} (h : (k, r) ∈ parse_legacy legacy conf) : inv_ok r := by
  unfold parse_legacy at h
  simp only [List.mem_singleton, Prod.mk.injEq] at h
  obtain ⟨-, rfl⟩ := h
  exact ⟨by simp, fun u _ => by simp⟩

/-! ## Evaluating the parsers on exported data -/

theorem mapM_map_eq_some {α : Type} (g : α → Option Nat) (f : Nat → α) :
    ∀ l : List Nat, (∀ x ∈ l, g (f x) = some x) → (l.map f).mapM g = some l := by
  intro l
  induction l with
  | nil => intro _; rfl
  | cons x rest ih =>
    intro h
    rw [List.map_cons, List.mapM_cons, h x (List.mem_cons_self x rest),
      ih fun y hy => h y (List.mem_cons_of_mem x hy)]
    rfl

theorem string_data_mk (l : List Char) : (String.mk l).data = l := rfl

theorem uuidFromHexS_uuidHexS (n : Nat) (hn : n < 2 ^ 128) :
    uuidFromHexS (uuidHexS n) = some n := by
  unfold uuidFromHexS uuidHexS
  rw [string_data_mk]
  exact uuidFromHex_uuidHex n hn

theorem findAll_export_kv1 (r : PaletteState) :
    findAll (export_kv1 r) "hidden" = (sortNat r.hidden_defaults).map uuidHexS := by
  unfold findAll export_kv1
  rw [@List.filter_cons_of_neg KV1Leaf (fun p => strLower p.name == "hidden")
      ⟨"selected", uuidHexS r.selected⟩ _
      (show ¬((strLower "selected" == "hidden") = true) by decide),
    @List.filter_cons_of_neg KV1Leaf (fun p => strLower p.name == "hidden")
      ⟨"save_settings", if r.save_settings then "1" else "0"⟩ _
      (show ¬((strLower "save_settings" == "hidden") = true) by decide),
    List.filter_map]
  have hfe : List.filter
      ((fun p => strLower p.name == "hidden") ∘
        fun u => (⟨"hidden", uuidHexS u⟩ : KV1Leaf)) (sortNat r.hidden_defaults)
      = sortNat r.hidden_defaults :=
    List.filter_eq_self.mpr fun a _ => rfl
  rw [hfe, List.map_map]
  rfl

theorem findKey_cons (x : KV1Leaf) (t : KV1Block) (key : String) :
    findKey (x :: t) key =
      (findKey t key).or (if strLower x.name == key then some x.value else none) := by
  unfold findKey
  rw [List.reverse_cons, List.find?_append]
  cases hf : List.find? (fun p => strLower p.name == key) t.reverse with
  | none => cases hx : (strLower x.name == key) <;> simp [List.find?, hx, Option.or]
  | some y => simp [Option.or]

theorem findKey_hidden_leaves (r : PaletteState) (key : String)
    (hkey : (("hidden" : String) == key) = false) :
    findKey ((sortNat r.hidden_defaults).map fun u => ⟨"hidden", uuidHexS u⟩) key
      = none := by
  unfold findKey
  rw [List.find?_eq_none.mpr, Option.map_none']
  intro x hx
  rw [List.mem_reverse, List.mem_map] at hx
  obtain ⟨u, -, rfl⟩ := hx
  simpa using hkey

theorem findKey_export_kv1_selected (r : PaletteState) :
    findKey (export_kv1 r) "selected" = some (uuidHexS r.selected) := by
  unfold export_kv1
  rw [findKey_cons, findKey_cons, findKey_hidden_leaves r "selected" (by decide),
    if_neg (show ¬((strLower "save_settings" == "selected") = true) by decide),
    if_pos (show (strLower "selected" == "selected") = true by decide)]
  rfl

theorem findKey_export_kv1_save (r : PaletteState) :
    findKey (export_kv1 r) "save_settings"
      = some (if r.save_settings then "1" else "0") := by
  unfold export_kv1
  rw [findKey_cons, findKey_cons, findKey_hidden_leaves r "save_settings" (by decide),
    if_pos (show (strLower "save_settings" == "save_settings") = true by decide),
    if_neg (show ¬((strLower "selected" == "save_settings") = true) by decide)]
  rfl

theorem kvBool_export_kv1 (r : PaletteState) :
    kvBool (export_kv1 r) "save_settings" false = r.save_settings := by
  unfold kvBool
  rw [findKey_export_kv1_save]
  cases r.save_settings <;> rfl

/-- Round-trip through the text format, for records whose identifiers are in
the 128-bit range and which satisfy the membership invariants. -/
theorem parse_kv1_export_kv1 (r : PaletteState)
    (hsel : r.selected < 2 ^ 128)
    (hhid : ∀ u ∈ r.hidden_defaults, u < 2 ^ 128)
    (hinv1 : r.selected ∉ r.hidden_defaults)
    (hinv2 : ∀ u ∈ r.hidden_defaults, u ∉ FORCE_SHOWN) :
    parse_kv1 (export_kv1 r) 1 = some r := by
  have hhraw : kv1HiddenRaw (export_kv1 r) = some (sortNat r.hidden_defaults) := by
    unfold kv1HiddenRaw
    rw [findAll_export_kv1]
    exact mapM_map_eq_some uuidFromHexS uuidHexS _ fun x hx =>
      uuidFromHexS_uuidHexS x (hhid x (mem_sortNat.mp hx))
  have hksel : kv1Selected (export_kv1 r) = r.selected := by
    unfold kv1Selected
    rw [findKey_export_kv1_selected, Option.some_bind,
      uuidFromHexS_uuidHexS r.selected hsel]
    rfl
  have hdisj : Disjoint r.hidden_defaults FORCE_SHOWN :=
    Finset.disjoint_left.mpr fun a ha => hinv2 a ha
  unfold parse_kv1
  rw [if_pos rfl, hhraw]
  simp only [hksel, kvBool_export_kv1, toFinset_sortNat,
    Finset.erase_eq_of_not_mem hinv1, sdiff_eq_self_iff_disjoint'.mpr hdisj]

/-- Round-trip through the binary format, for records whose identifiers are
in the 128-bit range and which satisfy the membership invariants. -/
theorem parse_dmx_export_dmx (r : PaletteState)
    (hsel : r.selected < 2 ^ 128)
    (hhid : ∀ u ∈ r.hidden_defaults, u < 2 ^ 128)
    (hinv1 : r.selected ∉ r.hidden_defaults)
    (hinv2 : ∀ u ∈ r.hidden_defaults, u ∉ FORCE_SHOWN) :
    parse_dmx (export_dmx r) 1 = some r := by
  have hsel' : dmxSelected (export_dmx r) = r.selected := by
    unfold dmxSelected
    rw [show lookupAttr (export_dmx r) "selected"
        = some (.vBinary (uuidBytes r.selected)) from rfl,
      Option.some_bind,
      show valBytes (.vBinary (uuidBytes r.selected))
        = some (uuidBytes r.selected) from rfl,
      Option.some_bind, uuidFromBytes_uuidBytes _ hsel]
    rfl
  have hdisj : Disjoint r.hidden_defaults FORCE_SHOWN :=
    Finset.disjoint_left.mpr fun a ha => hinv2 a ha
  have hmm : ((sortNat r.hidden_defaults).map uuidBytes).mapM uuidFromBytes
      = some (sortNat r.hidden_defaults) :=
    mapM_map_eq_some uuidFromBytes uuidBytes _ fun x hx =>
      uuidFromBytes_uuidBytes x (hhid x (mem_sortNat.mp hx))
  have hhid' : dmxHidden (export_dmx r) r.selected = some r.hidden_defaults := by
    unfold dmxHidden
    rw [show lookupAttr (export_dmx r) "hidden"
        = some (.vBinaryArr ((sortNat r.hidden_defaults).map uuidBytes)) from rfl]
    simp only [iterBytes, hmm, toFinset_sortNat, Finset.erase_eq_of_not_mem hinv1,
      sdiff_eq_self_iff_disjoint'.mpr hdisj]
  have hsave' : dmxSave (export_dmx r) = some r.save_settings := rfl
  unfold parse_dmx
  rw [hsel', hhid', hsave']

/-! ## Field projections of successful parses -/

theorem parse_kv1_selected_eq {d : KV1Block} {v : Nat} {r : PaletteState}
    (h : parse_kv1 d v = some r) : r.selected = kv1Selected d := by
  unfold parse_kv1 at h
  split at h
  · cases hh : kv1HiddenRaw d with
    | none => rw [hh] at h; cases h
    | some hs =>
      rw [hh] at h
      simp only [Option.some.injEq] at h
      subst h
      rfl
  · cases h

theorem parse_dmx_selected_eq {e : Element} {v : Nat} {r : PaletteState}
    (h : parse_dmx e v = some r) : r.selected = dmxSelected e := by
  unfold parse_dmx at h
  split at h
  · next hidden save hh hs =>
      simp only [Option.some.injEq] at h
      subst h
      rfl
  · cases h

theorem parse_dmx_hidden_eq {e : Element} {v : Nat} {r : PaletteState}
    (h : parse_dmx e v = some r) :
    dmxHidden e (dmxSelected e) = some r.hidden_defaults := by
  unfold parse_dmx at h
  split at h
  · next hidden save hh hs =>
      simp only [Option.some.injEq] at h
      subst h
      exact hh
  · cases h

/-! ## The claims -/

/-- Claim C1: every record produced by any of the three ingestion paths —
`parse_kv1`, `parse_dmx` or `parse_legacy` — satisfies the invariants:
its `selected` identifier is not a member of `hidden_defaults`, and no
identifier of the force-shown set is a member of `hidden_defaults`. -/
theorem claim_C1_parsed_records_satisfy_invariants
    (kd : KV1Block) (v₁ : Nat) (e : Element) (v₂ : Nat)
    (legacy : LegacyConf) (conf : KV1Block) (k : String)
    (r₁ r₂ r₃ : PaletteState) :
    (parse_kv1 kd v₁ = some r₁ → inv_ok r₁) ∧
    (parse_dmx e v₂ = some r₂ → inv_ok r₂) ∧
    ((k, r₃) ∈ parse_legacy legacy conf → inv_ok r₃) :=
  ⟨parse_kv1_inv, parse_dmx_inv, parse_legacy_inv⟩

/-- Witness for C1, at concrete inputs on all three paths. -/
theorem claim_C1_witness :
    inv_ok ⟨UUID_PORTAL2, false, ∅⟩ ∧ inv_ok ⟨UUID_PORTAL2, true, ∅⟩ :=
  ⟨(claim_C1_parsed_records_satisfy_invariants [] 1
      ⟨"Palette", "DMElement", [⟨"save_settings", .vBool true⟩]⟩ 2 ⟨[]⟩ [] ""
      ⟨UUID_PORTAL2, false, ∅⟩ ⟨UUID_PORTAL2, true, ∅⟩
      ⟨UUID_PORTAL2, false, ∅⟩).1 (by decide),
   (claim_C1_parsed_records_satisfy_invariants [] 1
      ⟨"Palette", "DMElement", [⟨"save_settings", .vBool true⟩]⟩ 2 ⟨[]⟩ [] ""
      ⟨UUID_PORTAL2, false, ∅⟩ ⟨UUID_PORTAL2, true, ∅⟩
      ⟨UUID_PORTAL2, false, ∅⟩).2.1 (by decide)⟩

/-- Claim C2 counterexample: the text round-trip fails when
`hidden_defaults` contains the `selected` identifier, because the parser
removes it; the claim is false for arbitrary `PaletteState` values. -/
theorem claim_C2_counterexample :
    parse_kv1 (export_kv1 ⟨UUID_PORTAL2, false, {UUID_PORTAL2}⟩) 1 ≠
      some ⟨UUID_PORTAL2, false, {UUID_PORTAL2}⟩ := by decide

/-- Claim C2 (amended): text round-trip `parse_kv1 (export_kv1 r) 1 = some r`
for every record whose identifiers are 128-bit values and which satisfies
the invariants (`selected` not hidden, no force-shown identifier hidden). -/
theorem claim_C2_round_trip_kv1 (r : PaletteState)
    (hsel : r.selected < 2 ^ 128)
    (hhid : ∀ u ∈ r.hidden_defaults, u < 2 ^ 128)
    (hinv1 : r.selected ∉ r.hidden_defaults)
    (hinv2 : ∀ u ∈ r.hidden_defaults, u ∉ FORCE_SHOWN) :
    parse_kv1 (export_kv1 r) 1 = some r :=
  parse_kv1_export_kv1 r hsel hhid hinv1 hinv2

/-- Witness for the amended C2 at a concrete record. -/
theorem claim_C2_witness :
    (UUID_PORTAL2 < 2 ^ 128 ∧ (∀ u ∈ ({5} : Finset Nat), u < 2 ^ 128) ∧
      UUID_PORTAL2 ∉ ({5} : Finset Nat) ∧
      (∀ u ∈ ({5} : Finset Nat), u ∉ FORCE_SHOWN)) ∧
    parse_kv1 (export_kv1 ⟨UUID_PORTAL2, true, {5}⟩) 1
      = some ⟨UUID_PORTAL2, true, {5}⟩ :=
  ⟨⟨by decide, by decide, by decide, by decide⟩,
    claim_C2_round_trip_kv1 ⟨UUID_PORTAL2, true, {5}⟩
      (by decide) (by decide) (by decide) (by decide)⟩

/-- Claim C3 counterexample: the binary round-trip fails when
`hidden_defaults` contains a force-shown identifier, because the parser
removes it; the claim is false for arbitrary `PaletteState` values. -/
theorem claim_C3_counterexample :
    parse_dmx (export_dmx ⟨7, false, {0x2ffd82cf}⟩) 1 ≠
      some ⟨7, false, {0x2ffd82cf}⟩ := by decide

/-- Claim C3 (amended): binary round-trip `parse_dmx (export_dmx r) 1 = some r`
for every record whose identifiers are 128-bit values and which satisfies
the invariants (`selected` not hidden, no force-shown identifier hidden). -/
theorem claim_C3_round_trip_dmx (r : PaletteState)
    (hsel : r.selected < 2 ^ 128)
    (hhid : ∀ u ∈ r.hidden_defaults, u < 2 ^ 128)
    (hinv1 : r.selected ∉ r.hidden_defaults)
    (hinv2 : ∀ u ∈ r.hidden_defaults, u ∉ FORCE_SHOWN) :
    parse_dmx (export_dmx r) 1 = some r :=
  parse_dmx_export_dmx r hsel hhid hinv1 hinv2

/-- Witness for the amended C3 at a concrete record. -/
theorem claim_C3_witness :
    ((9 : Nat) < 2 ^ 128 ∧ (∀ u ∈ ({5, 6} : Finset Nat), u < 2 ^ 128) ∧
      (9 : Nat) ∉ ({5, 6} : Finset Nat) ∧
      (∀ u ∈ ({5, 6} : Finset Nat), u ∉ FORCE_SHOWN)) ∧
    parse_dmx (export_dmx ⟨9, false, {5, 6}⟩) 1 = some ⟨9, false, {5, 6}⟩ :=
  ⟨⟨by decide, by decide, by decide, by decide⟩,
    claim_C3_round_trip_dmx ⟨9, false, {5, 6}⟩
      (by decide) (by decide) (by decide) (by decide)⟩

/-- Claim C4 counterexample: `parse_dmx` performs no version check at all —
at version 2 it still returns a fully parsed record, contradicting "no
record value is returned ... when the requested version differs from 1". -/
theorem claim_C4_counterexample :
    parse_dmx ⟨"Palette", "DMElement",
      [⟨"selected", .vBinary (uuidBytes 7)⟩, ⟨"save_settings", .vBool true⟩]⟩ 2
      = some ⟨7, true, ∅⟩ := by decide

/-- Claim C4 (amended): `parse_kv1` fails (its leading assertion) on every
version other than 1 and returns no record; `parse_dmx` never inspects its
version argument and parses identically at every version. -/
theorem claim_C4_version_gate (d : KV1Block) (e : Element) (v : Nat)
    (hv : v ≠ 1) :
    parse_kv1 d v = none ∧ parse_dmx e v = parse_dmx e 1 := by
  constructor
  · unfold parse_kv1
    rw [if_neg hv]
  · rfl

/-- Witness for the amended C4 at version 2. -/
theorem claim_C4_witness :
    ((2 : Nat) ≠ 1) ∧ parse_kv1 [] 2 = none ∧
      parse_dmx ⟨"Palette", "DMElement", []⟩ 2
        = parse_dmx ⟨"Palette", "DMElement", []⟩ 1 :=
  ⟨by decide,
   (claim_C4_version_gate [] ⟨"Palette", "DMElement", []⟩ 2 (by decide)).1,
   (claim_C4_version_gate [] ⟨"Palette", "DMElement", []⟩ 2 (by decide)).2⟩

/-- Claim C5 counterexample: a binary element with a `selected` attribute
but no `save_settings` attribute makes `parse_dmx` raise (`KeyError`
escapes), instead of falling back to the documented default `false`. -/
theorem claim_C5_counterexample :
    parse_dmx ⟨"Palette", "DMElement",
      [⟨"selected", .vBinary (uuidBytes 7)⟩]⟩ 1 = none := by decide

/-- Claim C5 (amended): in `parse_dmx`, an absent `selected` attribute
falls back to the default identifier and an absent `hidden` attribute to
the empty set, but an absent `save_settings` attribute raises (the parse
returns no record) rather than defaulting to `false`. -/
theorem claim_C5_dmx_missing_fields (e : Element) (v : Nat) (r : PaletteState) :
    (lookupAttr e "selected" = none →
      parse_dmx e v = some r → r.selected = UUID_PORTAL2) ∧
    (lookupAttr e "hidden" = none →
      parse_dmx e v = some r → r.hidden_defaults = ∅) ∧
    (lookupAttr e "save_settings" = none → parse_dmx e v = none) := by
  refine ⟨?_, ?_, ?_⟩
  · intro hsel h
    rw [parse_dmx_selected_eq h]
    unfold dmxSelected
    rw [hsel]
    rfl
  · intro hhid h
    have := parse_dmx_hidden_eq h
    unfold dmxHidden at this
    rw [hhid] at this
    simp only [Option.some.injEq] at this
    exact this.symm
  · intro hsave
    have hs : dmxSave e = none := by
      unfold dmxSave
      rw [hsave]
      rfl
    unfold parse_dmx
    rw [hs]
    cases dmxHidden e (dmxSelected e) <;> rfl

/-- Witness for the amended C5: defaults for `selected`/`hidden`, failure
for a missing `save_settings`, at concrete elements. -/
theorem claim_C5_witness :
    ((⟨UUID_PORTAL2, true, ∅⟩ : PaletteState).selected = UUID_PORTAL2) ∧
    ((⟨UUID_PORTAL2, true, ∅⟩ : PaletteState).hidden_defaults = ∅) ∧
    parse_dmx ⟨"Palette", "DMElement", []⟩ 1 = none :=
  ⟨(claim_C5_dmx_missing_fields
      ⟨"Palette", "DMElement", [⟨"save_settings", .vBool true⟩]⟩ 1
      ⟨UUID_PORTAL2, true, ∅⟩).1 (by decide) (by decide),
   (claim_C5_dmx_missing_fields
      ⟨"Palette", "DMElement", [⟨"save_settings", .vBool true⟩]⟩ 1
      ⟨UUID_PORTAL2, true, ∅⟩).2.1 (by decide) (by decide),
   (claim_C5_dmx_missing_fields ⟨"Palette", "DMElement", []⟩ 1
      ⟨UUID_PORTAL2, true, ∅⟩).2.2 (by decide)⟩

/-- Claim C6: `parse_legacy` is total, always returns exactly one entry
under the empty sub-key, and on an empty or missing legacy source (empty
`palette_uuid`, no `palette_save_settings` key) returns the documented
default record. -/
theorem claim_C6_legacy_defaults (legacy : LegacyConf) (conf : KV1Block) :
    (∃ st, parse_legacy legacy conf = [("", st)]) ∧
    ((legacy.lookup "Last_Selected" "palette_uuid" = none ∨
        legacy.lookup "Last_Selected" "palette_uuid" = some "") →
      legacy.lookup "General" "palette_save_settings" = none →
      parse_legacy legacy conf = [("", ⟨UUID_PORTAL2, false, ∅⟩)]) := by
  refine ⟨⟨_, rfl⟩, ?_⟩
  intro hsel hsave
  unfold parse_legacy LegacyConf.get_val LegacyConf.get_bool
  rcases hsel with hsel | hsel <;> rw [hsel, hsave] <;> rfl

/-- Witness for C6 on the empty legacy store. -/
theorem claim_C6_witness :
    parse_legacy ⟨[]⟩ [] = [("", ⟨UUID_PORTAL2, false, ∅⟩)] :=
  (claim_C6_legacy_defaults ⟨[]⟩ []).2 (Or.inl (by decide)) (by decide)

/-- Claim C7: in both `parse_kv1` and `parse_dmx` at version 1, a missing
or malformed `selected` identifier is recovered locally by substituting
`UUID_PORTAL2`, and the decode error never surfaces: a parse fails exactly
when its `hidden` data (or, for DMX, the `save_settings` read) fails,
independently of the `selected` field. -/
theorem claim_C7_selected_decode_recovery
    (kd : KV1Block) (e : Element) (r₁ r₂ : PaletteState) :
    ((findKey kd "selected").bind uuidFromHexS = none →
      parse_kv1 kd 1 = some r₁ → r₁.selected = UUID_PORTAL2) ∧
    (parse_kv1 kd 1 = none ↔ kv1HiddenRaw kd = none) ∧
    ((((lookupAttr e "selected").bind valBytes).bind uuidFromBytes = none →
      ∀ v : Nat, parse_dmx e v = some r₂ → r₂.selected = UUID_PORTAL2)) ∧
    (∀ v : Nat, (parse_dmx e v = none ↔
      (dmxHidden e (dmxSelected e) = none ∨ dmxSave e = none))) := by
  refine ⟨?_, ?_, ?_, ?_⟩
  · intro hnone h
    rw [parse_kv1_selected_eq h]
    unfold kv1Selected
    rw [hnone]
    rfl
  · unfold parse_kv1
    rw [if_pos rfl]
    cases hh : kv1HiddenRaw kd with
    | none => simp
    | some hs => simp
  · intro hnone v h
    rw [parse_dmx_selected_eq h]
    unfold dmxSelected
    rw [hnone]
    rfl
  · intro v
    unfold parse_dmx
    cases h1 : dmxHidden e (dmxSelected e) with
    | none => simp
    | some hid =>
      cases h2 : dmxSave e with
      | none => simp
      | some s => simp

/-- Witness for C7 at concrete malformed inputs. -/
theorem claim_C7_witness :
    ((⟨UUID_PORTAL2, false, ∅⟩ : PaletteState).selected = UUID_PORTAL2) ∧
    ((⟨UUID_PORTAL2, true, ∅⟩ : PaletteState).selected = UUID_PORTAL2) :=
  ⟨(claim_C7_selected_decode_recovery [⟨"selected", "xyz"⟩]
      ⟨"Palette", "DMElement", [⟨"save_settings", .vBool true⟩]⟩
      ⟨UUID_PORTAL2, false, ∅⟩ ⟨UUID_PORTAL2, true, ∅⟩).1
      (by decide) (by decide),
   (claim_C7_selected_decode_recovery [⟨"selected", "xyz"⟩]
      ⟨"Palette", "DMElement", [⟨"save_settings", .vBool true⟩]⟩
      ⟨UUID_PORTAL2, false, ∅⟩ ⟨UUID_PORTAL2, true, ∅⟩).2.2.1
      (by decide) 1 (by decide)⟩

/-- Claim C8 counterexample: a binary element with a `selected` attribute
and no `hidden` attribute still raises when `save_settings` is also
absent, so "it does not raise an error" is false as universally stated. -/
theorem claim_C8_counterexample :
    parse_dmx ⟨"Palette", "DMElement",
      [⟨"selected", .vBinary (uuidBytes 9)⟩]⟩ 1 = none := by decide

/-- Claim C8 (amended): a binary element with a `selected` attribute, no
`hidden` attribute and a readable `save_settings` attribute parses without
error to a record whose `hidden_defaults` is empty. -/
theorem claim_C8_no_hidden_attr (e : Element) (v : Nat) (b : Bool)
    (sv : DMXValue)
    (hsel : lookupAttr e "selected" = some sv)
    (hhid : lookupAttr e "hidden" = none)
    (hsave : dmxSave e = some b) :
    parse_dmx e v = some ⟨dmxSelected e, b, ∅⟩ := by
  have hh : dmxHidden e (dmxSelected e) = some ∅ := by
    unfold dmxHidden
    rw [hhid]
  unfold parse_dmx
  rw [hh, hsave]

/-- Witness for the amended C8 at a concrete element. -/
theorem claim_C8_witness :
    (lookupAttr ⟨"Palette", "DMElement",
        [⟨"selected", .vBinary (uuidBytes 3)⟩,
         ⟨"save_settings", .vBool true⟩]⟩ "selected"
      = some (.vBinary (uuidBytes 3)) ∧
     lookupAttr ⟨"Palette", "DMElement",
        [⟨"selected", .vBinary (uuidBytes 3)⟩,
         ⟨"save_settings", .vBool true⟩]⟩ "hidden" = none ∧
     dmxSave ⟨"Palette", "DMElement",
        [⟨"selected", .vBinary (uuidBytes 3)⟩,
         ⟨"save_settings", .vBool true⟩]⟩ = some true) ∧
    parse_dmx ⟨"Palette", "DMElement",
        [⟨"selected", .vBinary (uuidBytes 3)⟩,
         ⟨"save_settings", .vBool true⟩]⟩ 1
      = some ⟨dmxSelected ⟨"Palette", "DMElement",
          [⟨"selected", .vBinary (uuidBytes 3)⟩,
           ⟨"save_settings", .vBool true⟩]⟩, true, ∅⟩ :=
  ⟨⟨by decide, by decide, by decide⟩,
    claim_C8_no_hidden_attr _ 1 true (.vBinary (uuidBytes 3))
      (by decide) (by decide) (by decide)⟩

/-- Claim C9 counterexample: the `PaletteState` constructor performs no
removal, so an instance whose `hidden_defaults` contains its `selected`
identifier does exist; the invariant is not enforced at the construction
boundary. -/
theorem claim_C9_counterexample :
    (PaletteState.mk UUID_PORTAL2 false {UUID_PORTAL2}).selected ∈
      (PaletteState.mk UUID_PORTAL2 false {UUID_PORTAL2}).hidden_defaults := by
  decide

/-- Claim C9 (amended): the removal of `selected` and force-shown
identifiers happens only in the parse routines — the plain constructor
stores `hidden_defaults` unchanged, so a directly constructed instance can
violate the invariants — while every successfully parsed record satisfies
them. -/
theorem claim_C9_invariant_enforcement (kd : KV1Block) (e : Element)
    (legacy : LegacyConf) (conf : KV1Block) (v₁ v₂ : Nat) (k : String)
    (r₁ r₂ r₃ : PaletteState) :
    ((PaletteState.mk UUID_PORTAL2 false {UUID_PORTAL2}).hidden_defaults
        = {UUID_PORTAL2}) ∧
    (parse_kv1 kd v₁ = some r₁ → inv_ok r₁) ∧
    (parse_dmx e v₂ = some r₂ → inv_ok r₂) ∧
    ((k, r₃) ∈ parse_legacy legacy conf → inv_ok r₃) :=
  ⟨rfl, parse_kv1_inv, parse_dmx_inv, parse_legacy_inv⟩

/-- Witness for the amended C9 at concrete inputs. -/
theorem claim_C9_witness :
    inv_ok ⟨UUID_PORTAL2, true, ∅⟩ ∧ inv_ok ⟨UUID_PORTAL2, false, ∅⟩ :=
  ⟨(claim_C9_invariant_enforcement [⟨"save_settings", "1"⟩]
      ⟨"Palette", "DMElement", [⟨"save_settings", .vBool false⟩]⟩ ⟨[]⟩ [] 1 3 ""
      ⟨UUID_PORTAL2, true, ∅⟩ ⟨UUID_PORTAL2, false, ∅⟩
      ⟨UUID_PORTAL2, false, ∅⟩).2.1 (by decide),
   (claim_C9_invariant_enforcement [⟨"save_settings", "1"⟩]
      ⟨"Palette", "DMElement", [⟨"save_settings", .vBool false⟩]⟩ ⟨[]⟩ [] 1 3 ""
      ⟨UUID_PORTAL2, true, ∅⟩ ⟨UUID_PORTAL2, false, ∅⟩
      ⟨UUID_PORTAL2, false, ∅⟩).2.2.1 (by decide)⟩

/-- Claim C10: `parse_legacy` never reads the property node passed to it —
for any fixed legacy store, its result on any two `conf` arguments is the
same. -/
theorem claim_C10_legacy_ignores_conf (legacy : LegacyConf)
    (p q : KV1Block) :
    parse_legacy legacy p = parse_legacy legacy q := rfl

end Palette
